import Mathlib

/-!
Verification development for the EtsyBrowser repository.

The definitions below are a shallow embedding of the Python sources:
  * `src/uploader.py`   — `EtsyUploader` (workflow engine and batch coordinator),
  * `src/fill_csv.py`   — `EtsyCSVBuilder` (CSV transformation and validation),
  * `src/selector_recorder.py` — selector generation and resolution.

External effects (Selenium calls, the file system, time, randomness,
keyboard interrupts) are passed in as explicit environment records; the
control flow and the data transformations are translated statement by
statement from the source.
-/

namespace EtsyBrowser

/-! ## Python value and string model

Fields read from a CSV row (`product.get(...)`) may be a string, a list,
or some other value (for example a pandas `NaN` float for a missing cell,
or Python `None`).  `PyVal` models exactly the three cases the source
distinguishes with `isinstance` checks.
-/

inductive PyVal where
  | str (s : String)
  | list (l : List String)
  | other
  deriving DecidableEq, Repr

/-- Model of Python `s.split(sep)` for a one-character separator:
splits at every occurrence, keeps empty parts, and `"".split(sep)`
yields `[""]` (the result is never the empty list). -/
def pySplitChars (sep : Char) : List Char → List (List Char)
  | [] => [[]]
  | c :: cs =>
    if c = sep then [] :: pySplitChars sep cs
    else
      match pySplitChars sep cs with
      | [] => [[c]]
      | r :: rs => (c :: r) :: rs

/-- Model of Python `s.strip()`: drop whitespace from both ends. -/
def pyStripChars (cs : List Char) : List Char :=
  ((cs.dropWhile Char.isWhitespace).reverse.dropWhile Char.isWhitespace).reverse

/-- Model of Python `s.split()` (no separator): whitespace-separated
words, empty runs dropped. -/
def pyWords : List Char → List Char → List (List Char)
  | [], acc => if acc.isEmpty then [] else [acc.reverse]
  | c :: cs, acc =>
    if c.isWhitespace then
      if acc.isEmpty then pyWords cs [] else acc.reverse :: pyWords cs []
    else pyWords cs (c :: acc)

/-- Python truthiness of an optional string attribute / field:
`None` and `""` are falsy, every other string is truthy. -/
def pyTruthy : Option String → Bool
  | none => false
  | some s => !s.isEmpty

/-! ## Tags (`EtsyUploader._add_tags`, uploader.py:411-445)

```
if isinstance(tags, str):
    tag_list = [t.strip() for t in tags.split(',')]
else:
    tag_list = tags if isinstance(tags, list) else []
if not tag_list:
    tag_list = self.DEFAULT_TAGS[:13]
tag_list = tag_list[:13]
```
-/

/-- `EtsyUploader.DEFAULT_TAGS` (uploader.py:92-96). -/
def DEFAULT_TAGS : List String :=
  ["digital art", "AI print", "wall decor", "modern art",
   "printable art", "digital download", "wall art", "poster art",
   "home decor", "instant download", "AI art", "contemporary art"]

/-- The `tag_list` computed by `_add_tags` before the default-substitution
and truncation steps (uploader.py:414-418). -/
def parsedTagList : PyVal → List String
  | PyVal.str s => ((pySplitChars ',' s.toList).map pyStripChars).map String.mk
  | PyVal.list l => l
  | PyVal.other => []

/-- The final list of tags the `_add_tags` loop enters into the form
(uploader.py:414-427): parse, substitute `DEFAULT_TAGS[:13]` when the
parsed list is empty, then truncate to the first 13. -/
def addTagsList (tags : PyVal) : List String :=
  let tl := parsedTagList tags
  let tl := if tl.isEmpty then DEFAULT_TAGS.take 13 else tl
  tl.take 13

/-- `EtsyCSVBuilder.parse_tags` (fill_csv.py:75-85): empty input maps to
the empty string, otherwise split on commas, strip, truncate to 13,
re-join with commas. -/
def parse_tags (tags : String) : String :=
  if tags.isEmpty then ""
  else
    let tagList := ((pySplitChars ',' tags.toList).map pyStripChars).map String.mk
    String.intercalate "," (tagList.take 13)

/-! ## Images (`EtsyUploader._upload_images`, uploader.py:447-479)

```
if not image_paths: return True
paths = [p.strip() for p in image_paths.split(';') if p.strip()]  (or the list as-is)
if not paths: return True
file_input = driver.find_element(...)          # raises -> except -> return False
for path in paths[:10]:
    if os.path.exists(os.path.abspath(path)): file_input.send_keys(full_path)
return True
```
The file system is an environment: `fileExists p` stands for
`os.path.exists(os.path.abspath(p))`, and `fileInputFound` for whether
`driver.find_element` on the file-input selector succeeds.
-/

structure ImageEnv where
  fileExists : String → Bool
  fileInputFound : Bool

/-- The `paths` list computed at uploader.py:453-457. -/
def parsedImagePaths : PyVal → List String
  | PyVal.str s =>
      (((pySplitChars ';' s.toList).map pyStripChars).filter
        (fun cs => !cs.isEmpty)).map String.mk
  | PyVal.list l => l
  | PyVal.other => []

structure UploadImagesResult where
  ok : Bool
  attached : List String
  deriving DecidableEq, Repr

/-- `EtsyUploader._upload_images`: which paths are sent to the file
input and whether the step reports success.  An empty parsed list covers
both early `return True` statements (a falsy `image_paths` parses to the
empty list). -/
def uploadImages (env : ImageEnv) (imagePaths : PyVal) : UploadImagesResult :=
  let paths := parsedImagePaths imagePaths
  if paths.isEmpty then ⟨true, []⟩
  else if env.fileInputFound then
    ⟨true, (paths.take 10).filter env.fileExists⟩
  else ⟨false, []⟩

/-! ## Selector resolution (`find_element_by_any_selector`, selector_recorder.py:278-295)

```
for selector in selectors:
    try:
        element = driver.find_element(By.CSS_SELECTOR, selector)
        if element and element.is_displayed():
            return element
    except:
        continue
return None
```
A document is modelled by the list of elements each selector expression
matches, in document order.  Selenium's `find_element` returns the first
match and raises when there is none.
-/

structure Element where
  ident : Nat
  visible : Bool
  enabled : Bool
  deriving DecidableEq, Repr

structure Doc where
  elemsFor : String → List Element

/-- `find_element_by_any_selector`: try each selector in order; a
selector succeeds when its first match is displayed; return `none`
when no selector succeeds. -/
def find_element_by_any_selector (doc : Doc) : List String → Option Element
  | [] => none
  | sel :: rest =>
    match doc.elemsFor sel with
    | [] => find_element_by_any_selector doc rest
    | e :: _ => if e.visible then some e else find_element_by_any_selector doc rest

/-- What one candidate selector contributes, phrased after the source:
the first match if it is displayed, otherwise nothing. -/
def candidateHit (doc : Doc) (sel : String) : Option Element :=
  match doc.elemsFor sel with
  | [] => none
  | e :: _ => if e.visible then some e else none

/-! ## Candidate-selector generation (`generate_css_selectors`, selector_recorder.py:184-238)

The snapshot records the attributes the source reads with
`element.get_attribute`; `none` models an absent attribute (Python
`None`).  The source appends candidates in this order: id, name,
data-testid, data-input, type (input tags only), placeholder,
aria-label, first class token.  When the class attribute is truthy but
consists only of whitespace, `element_class.split()[0]` raises
`IndexError`, so the function is partial: `none` models that raise.
-/

structure ElementSnapshot where
  tagName : String
  id : Option String
  name : Option String
  className : Option String
  placeholder : Option String
  ariaLabel : Option String
  dataTestid : Option String
  dataInput : Option String
  typeAttr : Option String
  deriving DecidableEq, Repr

def generate_css_selectors (e : ElementSnapshot) : Option (List String) :=
  let selectors : List String := []
  let selectors := if pyTruthy e.id then
    selectors ++ ["#" ++ e.id.getD ""] else selectors
  let selectors := if pyTruthy e.name then
    selectors ++ [e.tagName ++ "[name=\"" ++ e.name.getD "" ++ "\"]"] else selectors
  let selectors := if pyTruthy e.dataTestid then
    selectors ++ [e.tagName ++ "[data-testid=\"" ++ e.dataTestid.getD "" ++ "\"]"] else selectors
  let selectors := if pyTruthy e.dataInput then
    selectors ++ [e.tagName ++ "[data-input=\"" ++ e.dataInput.getD "" ++ "\"]"] else selectors
  let selectors := if pyTruthy e.typeAttr && (e.tagName == "input") then
    selectors ++ ["input[type=\"" ++ e.typeAttr.getD "" ++ "\"]"] else selectors
  let selectors := if pyTruthy e.placeholder then
    selectors ++ [e.tagName ++ "[placeholder*=\"" ++ e.placeholder.getD "" ++ "\" i]"] else selectors
  let selectors := if pyTruthy e.ariaLabel then
    selectors ++ [e.tagName ++ "[aria-label*=\"" ++ e.ariaLabel.getD "" ++ "\" i]"] else selectors
  if pyTruthy e.className then
    match pyWords (e.className.getD "").toList [] with
    | [] => none
    | w :: _ => some (selectors ++ ["." ++ String.mk w])
  else some selectors

/-! Named pieces of the generated list, one per attribute, used to state
the ordering and omission facts about `generate_css_selectors`. -/

def idCands (e : ElementSnapshot) : List String :=
  if pyTruthy e.id then ["#" ++ e.id.getD ""] else []

def nameCands (e : ElementSnapshot) : List String :=
  if pyTruthy e.name then [e.tagName ++ "[name=\"" ++ e.name.getD "" ++ "\"]"] else []

def testidCands (e : ElementSnapshot) : List String :=
  if pyTruthy e.dataTestid then [e.tagName ++ "[data-testid=\"" ++ e.dataTestid.getD "" ++ "\"]"] else []

def dataInputCands (e : ElementSnapshot) : List String :=
  if pyTruthy e.dataInput then [e.tagName ++ "[data-input=\"" ++ e.dataInput.getD "" ++ "\"]"] else []

def typeCands (e : ElementSnapshot) : List String :=
  if pyTruthy e.typeAttr && (e.tagName == "input") then ["input[type=\"" ++ e.typeAttr.getD "" ++ "\"]"] else []

def placeholderCands (e : ElementSnapshot) : List String :=
  if pyTruthy e.placeholder then [e.tagName ++ "[placeholder*=\"" ++ e.placeholder.getD "" ++ "\" i]"] else []

def ariaCands (e : ElementSnapshot) : List String :=
  if pyTruthy e.ariaLabel then [e.tagName ++ "[aria-label*=\"" ++ e.ariaLabel.getD "" ++ "\" i]"] else []

def classCands (e : ElementSnapshot) : List String :=
  if pyTruthy e.className then
    match pyWords (e.className.getD "").toList [] with
    | [] => []
    | w :: _ => ["." ++ String.mk w]
  else []

/-! ## Per-listing retry (`upload_single_product` / `_handle_retry`, uploader.py:261-318)

```
def upload_single_product(self, product, retry_count=0):
    max_retries = self.config['settings']['max_retries']
    try:
        if not self.navigate_to_add_listing():
            return self._handle_retry(product, retry_count, max_retries)
        ... fill/attach steps (each swallows its own exceptions) ...
        if self._publish_listing(): return True
        else: return self._handle_retry(product, retry_count, max_retries)
    except Exception:
        if retry_count < max_retries:
            return self._handle_retry(product, retry_count, max_retries)
        return False

def _handle_retry(self, product, retry_count, max_retries):
    if retry_count < max_retries:
        return self.upload_single_product(product, retry_count + 1)
    return False
```
The external world decides how the attempt with a given `retry_count`
ends; `SingleEnv.outcome k` records that decision for attempt `k`.
-/

inductive AttemptOutcome where
  | published
  | navigateFailed
  | publishFailed
  | stepException
  deriving DecidableEq, Repr

structure SingleEnv where
  outcome : Nat → AttemptOutcome
  maxRetries : Nat

/-- `upload_single_product`, recursing through `_handle_retry` (which
re-invokes it with `retry_count + 1` while `retry_count < max_retries`).
The `stepException` case nests the same bound check twice, exactly as the
source checks it in the `except` handler and again in `_handle_retry`. -/
def upload_single_product (env : SingleEnv) (retryCount : Nat) : Bool :=
  match env.outcome retryCount with
  | AttemptOutcome.published => true
  | AttemptOutcome.navigateFailed =>
      if h : retryCount < env.maxRetries then upload_single_product env (retryCount + 1)
      else false
  | AttemptOutcome.publishFailed =>
      if h : retryCount < env.maxRetries then upload_single_product env (retryCount + 1)
      else false
  | AttemptOutcome.stepException =>
      if h : retryCount < env.maxRetries then
        if h : retryCount < env.maxRetries then upload_single_product env (retryCount + 1)
        else false
      else false
  termination_by env.maxRetries - retryCount

/-- The `retry_count` values of the attempts actually executed when the
call chain starts at `retry_count = rc`.  Every recorded attempt is a
fresh call of `upload_single_product`, which begins with
`navigate_to_add_listing` (uploader.py:268-270), so each attempt restarts
from Navigate with no state carried over. -/
def attemptsFrom (env : SingleEnv) (rc : Nat) : List Nat :=
  rc ::
    match env.outcome rc with
    | AttemptOutcome.published => []
    | _ =>
      if h : rc < env.maxRetries then attemptsFrom env (rc + 1)
      else []
  termination_by env.maxRetries - rc

/-! ## Input rows and validation (`EtsyCSVBuilder.validate_products`, fill_csv.py:151-193)

A row models the dictionary fields the validator reads; `none` stands
for a falsy value (absent key, Python `None`, or the empty string), as
tested by `if not product.get(field)`.  Only the error checks are
embedded (the loop at fill_csv.py:158-175): the remaining checks append
warnings, which no claim mentions.  `floatOk s` stands for whether
Python `float(s)` succeeds; a missing price falls back to `float(0)`,
which always succeeds.
-/

structure Row where
  title : Option String
  description : Option String
  price : Option String
  deriving DecidableEq, Repr

def missingMsg (i : Nat) (field : String) : String :=
  "Product " ++ Nat.repr (i + 1) ++ ": Missing " ++ field

def invalidPriceMsg (i : Nat) : String :=
  "Product " ++ Nat.repr (i + 1) ++ ": Invalid price format"

/-- The error messages the validator appends for the row at (0-based)
index `i`: one `Missing` error per falsy required field, in the order
`title`, `description`, `price`, then a format error when the price
string does not parse as a float. -/
def rowErrors (floatOk : String → Bool) (i : Nat) (r : Row) : List String :=
  (if pyTruthy r.title then [] else [missingMsg i "title"])
  ++ (if pyTruthy r.description then [] else [missingMsg i "description"])
  ++ (if pyTruthy r.price then [] else [missingMsg i "price"])
  ++ (match r.price with
      | none => []
      | some s => if floatOk s then [] else [invalidPriceMsg i])

def validateErrorsFrom (floatOk : String → Bool) (i : Nat) : List Row → List String
  | [] => []
  | r :: rs => rowErrors floatOk i r ++ validateErrorsFrom floatOk (i + 1) rs

/-- The `errors` list returned by `validate_products`. -/
def validateErrors (floatOk : String → Bool) (rows : List Row) : List String :=
  validateErrorsFrom floatOk 0 rows

/-! ## Batch coordinator (`upload_bulk`, uploader.py:535-576)

```
products = self.load_products_csv(csv_path)
if not products: return                          # driver never opened
self.stats['total'] = len(products)
self.setup_driver()                              # driver opened
if not self.login():
    self.cleanup(); return                       # driver closed, no summary
for i, product in enumerate(products[start_index:], start=start_index):
    success = self.upload_single_product(product)
    if success: self.stats['success'] += 1
    else:       self.stats['failed'] += 1
    if i < len(products) - 1:
        time.sleep(self.config['settings']['delay_between_products'])
self._print_summary()
self.cleanup()                                   # driver closed
```
There is no `try`/`finally`: a `KeyboardInterrupt` raised while sleeping
between items propagates out of `upload_bulk` without reaching
`self.cleanup()`.  `interruptAtSleep = some i` models the operator
interrupting during the sleep that follows item `i`; `none` models an
uninterrupted run.  `rateLimitPauses` counts extra every-10th-item
pauses; no statement of `upload_bulk` performs one, so it is `0` on
every path.
-/

structure BulkEnv where
  products : List Row
  loginOk : Bool
  itemSucceeds : Nat → Bool
  interruptAtSleep : Option Nat

structure LoopState where
  success : Nat
  failed : Nat
  invoked : List Nat
  sleeps : Nat
  interrupted : Bool
  deriving DecidableEq, Repr

/-- The `for` loop of `upload_bulk` over the item indices `idxs`
(`enumerate(products[start_index:], start=start_index)`), where `n` is
`len(products)`. -/
def runItems (env : BulkEnv) (n : Nat) : List Nat → LoopState → LoopState
  | [], st => st
  | i :: rest, st =>
    let st' : LoopState :=
      { st with
        invoked := st.invoked ++ [i]
        success := st.success + (if env.itemSucceeds i then 1 else 0)
        failed := st.failed + (if env.itemSucceeds i then 0 else 1) }
    if i < n - 1 then
      if env.interruptAtSleep = some i then { st' with interrupted := true }
      else runItems env n rest { st' with sleeps := st'.sleeps + 1 }
    else runItems env n rest st'

structure BulkResult where
  total : Nat
  success : Nat
  failed : Nat
  invoked : List Nat
  interItemSleeps : Nat
  rateLimitPauses : Nat
  summaryPrinted : Bool
  driverOpened : Bool
  driverClosed : Bool
  deriving DecidableEq, Repr

/-- `upload_bulk`: the three exit paths of the source (no products,
login failure, loop exit) plus the interrupted-during-sleep exit the
missing `finally` leaves open. -/
def upload_bulk (env : BulkEnv) (startIndex : Nat) : BulkResult :=
  let n := env.products.length
  if n = 0 then
    { total := 0, success := 0, failed := 0, invoked := [], interItemSleeps := 0,
      rateLimitPauses := 0, summaryPrinted := false,
      driverOpened := false, driverClosed := false }
  else if !env.loginOk then
    { total := n, success := 0, failed := 0, invoked := [], interItemSleeps := 0,
      rateLimitPauses := 0, summaryPrinted := false,
      driverOpened := true, driverClosed := true }
  else
    let st := runItems env n (List.range' startIndex (n - startIndex))
      { success := 0, failed := 0, invoked := [], sleeps := 0, interrupted := false }
    { total := n, success := st.success, failed := st.failed, invoked := st.invoked,
      interItemSleeps := st.sleeps, rateLimitPauses := 0,
      summaryPrinted := !st.interrupted,
      driverOpened := true, driverClosed := !st.interrupted }

/-! ## Concrete fixtures for counterexamples and witnesses -/

/-- A row that passes validation. -/
def goodRow : Row :=
  { title := some "Sunset Print", description := some "A print", price := some "9.99" }

/-- A row with a falsy title: `validate_products` flags it. -/
def badRow : Row :=
  { title := none, description := some "A print", price := some "9.99" }

/-- A float-parse oracle for the fixtures: only `"9.99"` parses. -/
def floatOkFix : String → Bool := fun s => s == "9.99"

/-- Batch of 5 records whose session authentication fails (Scenario C). -/
def env5 : BulkEnv :=
  { products := List.replicate 5 goodRow, loginOk := false,
    itemSucceeds := fun _ => true, interruptAtSleep := none }

/-- Batch of 12 records, login succeeds, every item succeeds, no
interrupt (Scenario B). -/
def env12 : BulkEnv :=
  { products := List.replicate 12 goodRow, loginOk := true,
    itemSucceeds := fun _ => true, interruptAtSleep := none }

/-- Batch of 2 records interrupted during the sleep after the first item. -/
def envInterrupt : BulkEnv :=
  { products := List.replicate 2 goodRow, loginOk := true,
    itemSucceeds := fun _ => true, interruptAtSleep := some 0 }

/-- Batch containing one row that fails validation. -/
def envBad : BulkEnv :=
  { products := [badRow], loginOk := true,
    itemSucceeds := fun _ => true, interruptAtSleep := none }

/-- Attempt environment where every attempt fails at publish, with the
default `max_retries = 3`. -/
def envAlwaysFail : SingleEnv :=
  { outcome := fun _ => AttemptOutcome.publishFailed, maxRetries := 3 }

/-- Attempt environment where attempt 0 fails and attempt 1 publishes. -/
def envSecondTry : SingleEnv :=
  { outcome := fun k => if k = 0 then AttemptOutcome.publishFailed
      else AttemptOutcome.published, maxRetries := 3 }

def elemA : Element := { ident := 1, visible := true, enabled := true }
def elemB : Element := { ident := 2, visible := true, enabled := true }
def elemDisabled : Element := { ident := 3, visible := true, enabled := false }

/-- A document in which the expression `"sel-a"` matches two visible
elements. -/
def docAmbig : Doc :=
  { elemsFor := fun sel => if sel = "sel-a" then [elemA, elemB] else [] }

/-- A document in which `"sel-d"` matches exactly one visible but
disabled (non-interactable) element. -/
def docDisabled : Doc :=
  { elemsFor := fun sel => if sel = "sel-d" then [elemDisabled] else [] }

/-- A document for the resolver witness: the first expression matches
nothing, the second matches a visible element. -/
def docFallback : Doc :=
  { elemsFor := fun sel => if sel = "sel-b" then [elemA] else [] }

/-- Snapshot carrying only a placeholder and an accessible label. -/
def snapPA : ElementSnapshot :=
  { tagName := "input", id := none, name := none, className := none,
    placeholder := some "p", ariaLabel := some "l", dataTestid := none,
    dataInput := none, typeAttr := none }

/-- Snapshot carrying only a `data-input` and a `type` attribute. -/
def snapTI : ElementSnapshot :=
  { tagName := "input", id := none, name := none, className := none,
    placeholder := none, ariaLabel := none, dataTestid := none,
    dataInput := some "d", typeAttr := some "text" }

/-- Snapshot carrying only an identifier. -/
def snapId : ElementSnapshot :=
  { tagName := "input", id := some "x", name := none, className := none,
    placeholder := none, ariaLabel := none, dataTestid := none,
    dataInput := none, typeAttr := none }

/-- File system for the image fixtures: `"b.png"` is missing. -/
def imgEnvFix : ImageEnv :=
  { fileExists := fun p => !(p == "b.png"), fileInputFound := true }

/-! ## Helper lemmas -/

theorem pySplitChars_ne_nil (sep : Char) (cs : List Char) : pySplitChars sep cs ≠ [] := by
  induction cs with
  | nil => simp [pySplitChars]
  | cons c cs ih =>
    simp only [pySplitChars]
    by_cases h : c = sep
    · simp [h]
    · simp only [if_neg h]
      cases hr : pySplitChars sep cs <;> simp

theorem parsedTagList_str_ne_nil (s : String) : parsedTagList (PyVal.str s) ≠ [] := by
  simp only [parsedTagList, ne_eq, List.map_eq_nil_iff]
  exact pySplitChars_ne_nil ',' s.toList

theorem mem_attemptsFrom_self (env : SingleEnv) (rc : Nat) : rc ∈ attemptsFrom env rc := by
  rw [attemptsFrom]
  exact List.mem_cons_self _ _

theorem attemptsFrom_length (env : SingleEnv) (rc : Nat) (hrc : rc ≤ env.maxRetries) :
    (attemptsFrom env rc).length + rc ≤ env.maxRetries + 1 := by
  rw [attemptsFrom]
  cases h : env.outcome rc with
  | published => simp; omega
  | navigateFailed =>
    by_cases hlt : rc < env.maxRetries
    · simp only [dif_pos hlt]
      have ih := attemptsFrom_length env (rc + 1) (by omega)
      simp only [List.length_cons]
      omega
    · simp only [dif_neg hlt]
      simp
      omega
  | publishFailed =>
    by_cases hlt : rc < env.maxRetries
    · simp only [dif_pos hlt]
      have ih := attemptsFrom_length env (rc + 1) (by omega)
      simp only [List.length_cons]
      omega
    · simp only [dif_neg hlt]
      simp
      omega
  | stepException =>
    by_cases hlt : rc < env.maxRetries
    · simp only [dif_pos hlt]
      have ih := attemptsFrom_length env (rc + 1) (by omega)
      simp only [List.length_cons]
      omega
    · simp only [dif_neg hlt]
      simp
      omega
  termination_by env.maxRetries - rc

theorem attemptsFrom_eq_range' (env : SingleEnv) (rc : Nat) :
    attemptsFrom env rc = List.range' rc (attemptsFrom env rc).length := by
  rw [attemptsFrom]
  cases h : env.outcome rc with
  | published => simp
  | navigateFailed =>
    by_cases hlt : rc < env.maxRetries
    · simp only [dif_pos hlt]
      have ih := attemptsFrom_eq_range' env (rc + 1)
      simp only [List.length_cons, List.range'_succ]
      exact congrArg (rc :: ·) ih
    · simp only [dif_neg hlt]
      simp
  | publishFailed =>
    by_cases hlt : rc < env.maxRetries
    · simp only [dif_pos hlt]
      have ih := attemptsFrom_eq_range' env (rc + 1)
      simp only [List.length_cons, List.range'_succ]
      exact congrArg (rc :: ·) ih
    · simp only [dif_neg hlt]
      simp
  | stepException =>
    by_cases hlt : rc < env.maxRetries
    · simp only [dif_pos hlt]
      have ih := attemptsFrom_eq_range' env (rc + 1)
      simp only [List.length_cons, List.range'_succ]
      exact congrArg (rc :: ·) ih
    · simp only [dif_neg hlt]
      simp
  termination_by env.maxRetries - rc

theorem attemptsFrom_succ_mem (env : SingleEnv) (rc k : Nat)
    (hk : k ∈ attemptsFrom env rc)
    (hfail : env.outcome k ≠ AttemptOutcome.published)
    (hlt : k < env.maxRetries) :
    (k + 1) ∈ attemptsFrom env rc := by
  rw [attemptsFrom] at hk ⊢
  cases h : env.outcome rc with
  | published =>
    simp [h] at hk
    subst hk
    exact absurd h hfail
  | navigateFailed =>
    simp only [h] at hk ⊢
    by_cases hrc : rc < env.maxRetries
    · simp only [dif_pos hrc] at hk ⊢
      rcases List.mem_cons.1 hk with hk0 | hk1
      · subst hk0
        exact List.mem_cons_of_mem _ (mem_attemptsFrom_self env (k + 1))
      · exact List.mem_cons_of_mem _ (attemptsFrom_succ_mem env (rc + 1) k hk1 hfail hlt)
    · simp only [dif_neg hrc] at hk
      simp at hk
      subst hk
      omega
  | publishFailed =>
    simp only [h] at hk ⊢
    by_cases hrc : rc < env.maxRetries
    · simp only [dif_pos hrc] at hk ⊢
      rcases List.mem_cons.1 hk with hk0 | hk1
      · subst hk0
        exact List.mem_cons_of_mem _ (mem_attemptsFrom_self env (k + 1))
      · exact List.mem_cons_of_mem _ (attemptsFrom_succ_mem env (rc + 1) k hk1 hfail hlt)
    · simp only [dif_neg hrc] at hk
      simp at hk
      subst hk
      omega
  | stepException =>
    simp only [h] at hk ⊢
    by_cases hrc : rc < env.maxRetries
    · simp only [dif_pos hrc] at hk ⊢
      rcases List.mem_cons.1 hk with hk0 | hk1
      · subst hk0
        exact List.mem_cons_of_mem _ (mem_attemptsFrom_self env (k + 1))
      · exact List.mem_cons_of_mem _ (attemptsFrom_succ_mem env (rc + 1) k hk1 hfail hlt)
    · simp only [dif_neg hrc] at hk
      simp at hk
      subst hk
      omega
  termination_by env.maxRetries - rc

/-- `upload_single_product` reports success exactly when one of the
executed attempts publishes; it never raises. -/
theorem upload_single_product_iff (env : SingleEnv) (rc : Nat) :
    upload_single_product env rc = true ↔
      ∃ k ∈ attemptsFrom env rc, env.outcome k = AttemptOutcome.published := by
  rw [upload_single_product, attemptsFrom]
  cases h : env.outcome rc with
  | published => simp [h]
  | navigateFailed =>
    by_cases hlt : rc < env.maxRetries
    · simp only [dif_pos hlt]
      rw [upload_single_product_iff env (rc + 1)]
      simp [h]
    · simp only [dif_neg hlt]
      simp [h]
  | publishFailed =>
    by_cases hlt : rc < env.maxRetries
    · simp only [dif_pos hlt]
      rw [upload_single_product_iff env (rc + 1)]
      simp [h]
    · simp only [dif_neg hlt]
      simp [h]
  | stepException =>
    by_cases hlt : rc < env.maxRetries
    · simp only [dif_pos hlt]
      rw [upload_single_product_iff env (rc + 1)]
      simp [h]
    · simp only [dif_neg hlt]
      simp [h]
  termination_by env.maxRetries - rc

theorem countP_bool_split (p : Nat → Bool) (l : List Nat) :
    l.countP p + l.countP (fun i => !(p i)) = l.length := by
  induction l with
  | nil => rfl
  | cons a l ih =>
    simp only [List.countP_cons, List.length_cons]
    cases p a <;> simp <;> omega

/-- Closed form of the `upload_bulk` loop when no interrupt occurs. -/
theorem runItems_closed (env : BulkEnv) (hni : env.interruptAtSleep = none)
    (n : Nat) (idxs : List Nat) (st : LoopState) :
    runItems env n idxs st =
      { success := st.success + idxs.countP env.itemSucceeds
        failed := st.failed + idxs.countP (fun i => !(env.itemSucceeds i))
        invoked := st.invoked ++ idxs
        sleeps := st.sleeps + idxs.countP (fun i => decide (i < n - 1))
        interrupted := st.interrupted } := by
  induction idxs generalizing st with
  | nil => simp [runItems]
  | cons i rest ih =>
    simp only [runItems]
    by_cases hlt : i < n - 1
    · rw [if_pos hlt, if_neg (by simp [hni]), ih]
      simp only [LoopState.mk.injEq, List.countP_cons]
      refine ⟨?_, ?_, ?_, ?_⟩
      · cases env.itemSucceeds i <;> simp <;> omega
      · cases env.itemSucceeds i <;> simp <;> omega
      · simp
      · simp [hlt]
        omega
    · rw [if_neg hlt, ih]
      simp only [LoopState.mk.injEq, List.countP_cons]
      refine ⟨?_, ?_, ?_, ?_⟩
      · cases env.itemSucceeds i <;> simp <;> omega
      · cases env.itemSucceeds i <;> simp <;> omega
      · simp
      · simp [hlt]

theorem countP_range'_true (p : Nat → Bool) (n : Nat) (hp : ∀ i, p i = true) :
    (List.range' 0 n).countP p = n := by
  calc (List.range' 0 n).countP p = (List.range' 0 n).length :=
        List.countP_eq_length.2 (fun a _ => hp a)
    _ = n := by simp

theorem countP_range'_lt_pred (n : Nat) :
    (List.range' 0 n).countP (fun i => decide (i < n - 1)) = n - 1 := by
  rw [← List.range_eq_range']
  cases n with
  | zero => simp
  | succ m =>
    rw [List.range_succ, List.countP_append]
    have h1 : (List.range m).countP (fun i => decide (i < m)) = m := by
      calc (List.range m).countP (fun i => decide (i < m))
          = (List.range m).length := List.countP_eq_length.2 (fun a ha => by
              simp only [List.mem_range] at ha
              simpa using ha)
        _ = m := List.length_range m
    simp only [Nat.add_sub_cancel]
    simp [h1, List.countP_cons]

theorem validateErrorsFrom_missing_title (floatOk : String → Bool)
    (rows : List Row) (i j : Nat) (r : Row)
    (hj : rows.get? j = some r) (ht : pyTruthy r.title = false) :
    missingMsg (i + j) "title" ∈ validateErrorsFrom floatOk i rows := by
  induction rows generalizing i j with
  | nil => simp at hj
  | cons r0 rest ih =>
    cases j with
    | zero =>
      simp only [List.get?] at hj
      injection hj with hj
      subst hj
      simp only [validateErrorsFrom, Nat.add_zero]
      apply List.mem_append_left
      apply List.mem_append_left
      apply List.mem_append_left
      simp [ht]
    | succ j' =>
      simp only [List.get?] at hj
      have harith : i + (j' + 1) = (i + 1) + j' := by omega
      rw [harith]
      simp only [validateErrorsFrom]
      exact List.mem_append_right _ (ih (i + 1) j' hj)

/-! ## Claim C6 -/

/-- C6 (counterexample): the claim says a tag list of 13 or fewer
elements is entered unmodified, but for the empty list the code
substitutes the 12 built-in default tags (uploader.py:421-422), so the
entered list is not the input list. -/
theorem addTags_empty_counterexample :
    ([] : List String).length ≤ 13
    ∧ addTagsList (PyVal.list []) ≠ []
    ∧ (addTagsList (PyVal.list [])).length = 12 := by decide

/-- C6 (amended): whenever the parsed tag list is non-empty, `_add_tags`
enters exactly its first 13 elements in order — at most 13 tags, a list
longer than 13 truncated to its first 13, and a non-empty list of 13 or
fewer entered unmodified.  (The empty parsed list is instead replaced by
the built-in default tags; see the default-substitution theorem.) -/
theorem addTags_truncation (t : PyVal) (h : parsedTagList t ≠ []) :
    addTagsList t = (parsedTagList t).take 13
    ∧ (addTagsList t).length ≤ 13
    ∧ ((parsedTagList t).length ≤ 13 → addTagsList t = parsedTagList t) := by
  have hne : (parsedTagList t).isEmpty = false := by
    cases hp : parsedTagList t
    · exact absurd hp h
    · rfl
  refine ⟨?_, ?_, ?_⟩
  · simp [addTagsList, hne]
  · simp [addTagsList, hne]
  · intro hlen
    simp only [addTagsList, hne, Bool.false_eq_true, if_false]
    exact List.take_of_length_le hlen

theorem addTags_truncation_witness :
    parsedTagList (PyVal.list ["a", "b"]) ≠ []
    ∧ addTagsList (PyVal.list ["a", "b"]) = parsedTagList (PyVal.list ["a", "b"]) :=
  ⟨by decide, (addTags_truncation (PyVal.list ["a", "b"]) (by decide)).2.2 (by decide)⟩

/-! ## Claim C10 -/

/-- C10 (counterexample): the claim says the default tags are
substituted whenever the tags field is neither a non-empty string nor a
list.  The empty string is neither, yet the code parses it to the
one-element list `[""]` (Python `''.split(',') == ['']` is truthy), so
no substitution happens and a single empty tag is entered instead of the
12 defaults. -/
theorem addTags_default_counterexample :
    addTagsList (PyVal.str "") = [""]
    ∧ addTagsList (PyVal.str "") ≠ DEFAULT_TAGS.take 13 := by decide

/-- C10 (amended): the default substitution happens exactly when the
parsed tag list is empty — that is, when the tags field is neither a
string nor a list (for example a missing cell), or is the empty list;
any string input (even the empty string) parses to a non-empty list and
is never substituted.  The built-in default list has 12 entries. -/
theorem addTags_default_policy (t : PyVal) :
    (parsedTagList t = [] → addTagsList t = DEFAULT_TAGS)
    ∧ (∀ s, parsedTagList (PyVal.str s) ≠ [])
    ∧ DEFAULT_TAGS.length = 12 := by
  refine ⟨?_, fun s => parsedTagList_str_ne_nil s, by decide⟩
  intro h
  simp only [addTagsList, h]
  decide

theorem addTags_default_policy_witness :
    addTagsList PyVal.other = DEFAULT_TAGS
    ∧ parsedTagList (PyVal.str "x") ≠ [] :=
  ⟨(addTags_default_policy PyVal.other).1 rfl,
   (addTags_default_policy PyVal.other).2.1 "x"⟩

/-! ## Claim C7 -/

/-- C7: when the file input is found, `_upload_images` reports success,
attaches exactly the existing paths among the first 10 parsed paths in
their original order (a sublist of the parsed list), never more than 10,
and a nonexistent path is skipped without failing the step while every
existing path among the first 10 is still attached. -/
theorem uploadImages_spec (env : ImageEnv) (ip : PyVal)
    (h : env.fileInputFound = true) :
    (uploadImages env ip).ok = true
    ∧ (uploadImages env ip).attached
        = ((parsedImagePaths ip).take 10).filter env.fileExists
    ∧ (uploadImages env ip).attached.length ≤ 10
    ∧ (uploadImages env ip).attached.Sublist (parsedImagePaths ip)
    ∧ (∀ p, p ∈ (parsedImagePaths ip).take 10 → env.fileExists p = true →
        p ∈ (uploadImages env ip).attached) := by
  cases hp : parsedImagePaths ip with
  | nil =>
    simp [uploadImages, hp]
  | cons q qs =>
    have hred : uploadImages env ip = ⟨true, ((q :: qs).take 10).filter env.fileExists⟩ := by
      simp [uploadImages, hp, h]
    rw [hred]
    refine ⟨rfl, rfl, ?_, ?_, ?_⟩
    · exact le_trans (List.length_filter_le _ _) (List.length_take_le _ _)
    · exact List.Sublist.trans (List.filter_sublist _) (List.take_sublist _ _)
    · intro p hmem hex
      exact List.mem_filter.2 ⟨hmem, hex⟩

theorem uploadImages_spec_witness :
    imgEnvFix.fileInputFound = true
    ∧ (uploadImages imgEnvFix (PyVal.list ["a.png", "b.png", "c.png"])).ok = true
    ∧ "c.png" ∈ (uploadImages imgEnvFix (PyVal.list ["a.png", "b.png", "c.png"])).attached :=
  ⟨rfl,
   (uploadImages_spec imgEnvFix (PyVal.list ["a.png", "b.png", "c.png"]) rfl).1,
   (uploadImages_spec imgEnvFix (PyVal.list ["a.png", "b.png", "c.png"]) rfl).2.2.2.2
     "c.png" (by decide) (by decide)⟩

/-! ## Claim C2 -/

theorem append_ite (p : Prop) [Decidable p] (S c : List String) :
    (if p then S ++ c else S) = S ++ (if p then c else []) := by
  split_ifs <;> simp

theorem candidateHit_visible (doc : Doc) (sel : String) (e : Element)
    (h : candidateHit doc sel = some e) : e.visible = true := by
  cases hm : doc.elemsFor sel with
  | nil => simp [candidateHit, hm] at h
  | cons e0 es =>
    simp only [candidateHit, hm] at h
    by_cases hv : e0.visible
    · rw [if_pos hv] at h
      injection h with h
      subst h
      exact hv
    · rw [if_neg hv] at h
      cases h

theorem resolver_eq_findSome (doc : Doc) (sels : List String) :
    find_element_by_any_selector doc sels = sels.findSome? (candidateHit doc) := by
  induction sels with
  | nil => rfl
  | cons sel rest ih =>
    simp only [find_element_by_any_selector, List.findSome?_cons, candidateHit]
    cases hm : doc.elemsFor sel with
    | nil => simpa using ih
    | cons e es =>
      by_cases hv : e.visible
      · simp [hv]
      · simp [hv, ih]

/-- C2 (counterexample): the claim says a candidate succeeds only when
it matches exactly one visible and interactable element.  The code
(selector_recorder.py:288-295) takes the first match of the candidate
and checks only `is_displayed()`: with a candidate matching two elements
it returns the first instead of moving on, and with a sole visible but
disabled element it returns that non-interactable element; when nothing
matches it returns `None` with no record of the tried expressions. -/
theorem resolver_counterexample :
    find_element_by_any_selector docAmbig ["sel-a"] = some elemA
    ∧ (docAmbig.elemsFor "sel-a").length = 2
    ∧ find_element_by_any_selector docDisabled ["sel-d"] = some elemDisabled
    ∧ elemDisabled.enabled = false
    ∧ find_element_by_any_selector docAmbig ["sel-x", "sel-y"] = none :=
  ⟨rfl, rfl, rfl, rfl, rfl⟩

/-- C2 (amended): resolution tries the candidate expressions strictly in
their listed order and returns the first candidate's hit, where a
candidate hits exactly when its first match in document order is
currently displayed — regardless of how many elements it matches and of
whether the element is enabled; when no candidate hits it returns `None`
(carrying no list of attempted expressions).  Every returned element is
visible and is the hit of some tried candidate. -/
theorem resolver_first_displayed (doc : Doc) (sels : List String) :
    find_element_by_any_selector doc sels = sels.findSome? (candidateHit doc)
    ∧ (∀ e, find_element_by_any_selector doc sels = some e →
        e.visible = true ∧ ∃ sel ∈ sels, candidateHit doc sel = some e) := by
  refine ⟨resolver_eq_findSome doc sels, ?_⟩
  intro e he
  rw [resolver_eq_findSome] at he
  obtain ⟨sel, hmem, hhit⟩ := List.exists_of_findSome?_eq_some he
  exact ⟨candidateHit_visible doc sel e hhit, sel, hmem, hhit⟩

theorem resolver_first_displayed_witness :
    find_element_by_any_selector docFallback ["sel-a", "sel-b"]
      = ["sel-a", "sel-b"].findSome? (candidateHit docFallback)
    ∧ elemA.visible = true :=
  ⟨(resolver_first_displayed docFallback ["sel-a", "sel-b"]).1,
   ((resolver_first_displayed docFallback ["sel-a", "sel-b"]).2 elemA rfl).1⟩

/-! ## Claim C3 -/

/-- C3 (counterexample): the claim fixes the candidate priority as
identifier, name, test-id, accessible label, placeholder, class,
structural path.  The code (selector_recorder.py:224-230) emits the
placeholder candidate before the aria-label candidate, and additionally
emits `data-input` and `type` candidates (selector_recorder.py:216-222)
that the claimed priority list does not contain; the structural path is
produced by a separate function and is not part of this output. -/
theorem generate_priority_counterexample :
    generate_css_selectors snapPA
      = some ["input[placeholder*=\"p\" i]", "input[aria-label*=\"l\" i]"]
    ∧ generate_css_selectors snapTI
      = some ["input[data-input=\"d\"]", "input[type=\"text\"]"] :=
  ⟨rfl, rfl⟩

/-- C3 (amended): on every snapshot where it does not raise, the
generator outputs the candidates ordered by the fixed code priority
identifier, name, test-id, data-input, type (input tags only),
placeholder, accessible label, first class token; an attribute absent
from the snapshot contributes nothing, so no empty candidate is ever
inserted. -/
theorem generate_ordered (e : ElementSnapshot) (l : List String)
    (h : generate_css_selectors e = some l) :
    l = idCands e ++ nameCands e ++ testidCands e ++ dataInputCands e ++ typeCands e
        ++ placeholderCands e ++ ariaCands e ++ classCands e
    ∧ (pyTruthy e.id = false → idCands e = [])
    ∧ (pyTruthy e.name = false → nameCands e = [])
    ∧ (pyTruthy e.dataTestid = false → testidCands e = [])
    ∧ (pyTruthy e.dataInput = false → dataInputCands e = [])
    ∧ (pyTruthy e.typeAttr = false → typeCands e = [])
    ∧ (pyTruthy e.placeholder = false → placeholderCands e = [])
    ∧ (pyTruthy e.ariaLabel = false → ariaCands e = [])
    ∧ (pyTruthy e.className = false → classCands e = []) := by
  refine ⟨?_, ?_, ?_, ?_, ?_, ?_, ?_, ?_, ?_⟩
  · simp only [generate_css_selectors, append_ite, List.nil_append] at h
    by_cases hcl : pyTruthy e.className
    · rw [if_pos hcl] at h
      cases hw : pyWords (e.className.getD "").toList [] with
      | nil =>
        simp only [hw] at h
        exact absurd h (by simp)
      | cons w ws =>
        simp only [hw] at h
        injection h with h
        subst h
        simp only [String.toList] at hw
        simp [idCands, nameCands, testidCands, dataInputCands, typeCands,
          placeholderCands, ariaCands, classCands, hcl, hw, List.append_assoc]
    · rw [if_neg hcl] at h
      injection h with h
      subst h
      simp [idCands, nameCands, testidCands, dataInputCands, typeCands,
        placeholderCands, ariaCands, classCands, hcl, List.append_assoc]
  · intro hh; simp [idCands, hh]
  · intro hh; simp [nameCands, hh]
  · intro hh; simp [testidCands, hh]
  · intro hh; simp [dataInputCands, hh]
  · intro hh; simp [typeCands, hh]
  · intro hh; simp [placeholderCands, hh]
  · intro hh; simp [ariaCands, hh]
  · intro hh; simp [classCands, hh]

theorem generate_ordered_witness :
    generate_css_selectors snapId = some ["#x"]
    ∧ ["#x"] = idCands snapId ++ nameCands snapId ++ testidCands snapId
        ++ dataInputCands snapId ++ typeCands snapId ++ placeholderCands snapId
        ++ ariaCands snapId ++ classCands snapId :=
  ⟨rfl, (generate_ordered snapId ["#x"] rfl).1⟩

/-! ## Claim C1 -/

/-- C1 (counterexample): the claim says a failed authentication marks
every record failed-not-attempted and still reports the counts, with a
batch of 5 yielding total 5, success 0, failed 5.  In the code the
login-failure path (uploader.py:552-555) closes the driver and returns
before the loop: `stats['failed']` is never incremented (it stays 0, not
5) and `_print_summary` is never reached. -/
theorem login_failure_counterexample :
    upload_bulk env5 0 =
      { total := 5, success := 0, failed := 0, invoked := [], interItemSleeps := 0,
        rateLimitPauses := 0, summaryPrinted := false,
        driverOpened := true, driverClosed := true } := by rfl

/-- C1 (amended): if session authentication fails on a non-empty batch,
the batch is aborted with zero workflow invocations and the driver is
closed, but the records are not marked failed — the failed count stays
0, not the batch size — and the run summary is not printed; only
`stats['total']` was set to the batch size before the abort. -/
theorem login_failure_aborts (env : BulkEnv) (s : Nat)
    (hne : env.products ≠ []) (hlog : env.loginOk = false) :
    (upload_bulk env s).total = env.products.length
    ∧ (upload_bulk env s).invoked = []
    ∧ (upload_bulk env s).success = 0
    ∧ (upload_bulk env s).failed = 0
    ∧ (upload_bulk env s).summaryPrinted = false
    ∧ (upload_bulk env s).driverClosed = true := by
  have hn : ¬ env.products.length = 0 := by
    simp [List.length_eq_zero, hne]
  simp [upload_bulk, hn, hlog]

theorem login_failure_aborts_witness :
    env5.products ≠ []
    ∧ (upload_bulk env5 0).failed = 0
    ∧ (upload_bulk env5 0).summaryPrinted = false :=
  ⟨by decide,
   (login_failure_aborts env5 0 (by decide) rfl).2.2.2.1,
   (login_failure_aborts env5 0 (by decide) rfl).2.2.2.2.1⟩

/-! ## Claim C5 -/

/-- C5 (counterexample): the claim says a batch of 12 successful records
inserts exactly one extra rate-limit pause, before the 11th item.  No
statement of the `upload_bulk` loop (uploader.py:557-572) performs an
every-10th-item pause: the run inserts zero extra pauses; it also
applies the fixed inter-item delay only after the first 11 items, not
after the last.  The aggregate counts total 12, success 12, failed 0 do
hold. -/
theorem rate_limit_counterexample :
    upload_bulk env12 0 =
      { total := 12, success := 12, failed := 0, invoked := List.range' 0 12,
        interItemSleeps := 11, rateLimitPauses := 0, summaryPrinted := true,
        driverOpened := true, driverClosed := true } := by rfl

/-- C5 (amended): in an uninterrupted batch run whose authentication and
items all succeed, every processed item except the last is followed by
one inter-item delay (a fixed `delay_between_products`, not a randomized
one), no extra every-10th-item rate-limit pause is ever inserted, and
the result reports total n, success n, failed 0 with the summary
printed. -/
theorem upload_bulk_pacing (env : BulkEnv)
    (hlog : env.loginOk = true) (hni : env.interruptAtSleep = none)
    (hsucc : ∀ i, env.itemSucceeds i = true) (hne : env.products ≠ []) :
    (upload_bulk env 0).total = env.products.length
    ∧ (upload_bulk env 0).success = env.products.length
    ∧ (upload_bulk env 0).failed = 0
    ∧ (upload_bulk env 0).interItemSleeps = env.products.length - 1
    ∧ (upload_bulk env 0).rateLimitPauses = 0
    ∧ (upload_bulk env 0).summaryPrinted = true
    ∧ (upload_bulk env 0).driverClosed = true := by
  have hn : ¬ env.products.length = 0 := by
    simp [List.length_eq_zero, hne]
  have hrun := runItems_closed env hni env.products.length
    (List.range' 0 (env.products.length - 0))
    { success := 0, failed := 0, invoked := [], sleeps := 0, interrupted := false }
  have hsucc' : (List.range' 0 env.products.length).countP env.itemSucceeds
      = env.products.length := countP_range'_true env.itemSucceeds _ hsucc
  have hfail : (List.range' 0 env.products.length).countP
      (fun i => !(env.itemSucceeds i)) = 0 :=
    List.countP_eq_zero.2 (fun a _ => by simp [hsucc a])
  simp only [Nat.sub_zero] at hrun
  simp [upload_bulk, hn, hlog, hrun, hsucc', hfail, countP_range'_lt_pred]

theorem upload_bulk_pacing_witness :
    (upload_bulk env12 0).success = env12.products.length
    ∧ (upload_bulk env12 0).rateLimitPauses = 0 :=
  ⟨(upload_bulk_pacing env12 rfl rfl (fun _ => rfl) (by decide)).2.1,
   (upload_bulk_pacing env12 rfl rfl (fun _ => rfl) (by decide)).2.2.2.2.1⟩

/-! ## Claim C8 -/

/-- C8 (counterexample): the claim says the browser session is released
on every exit path, including operator cancellation during an inter-item
wait.  `upload_bulk` has no `try`/`finally` (uploader.py:535-576): a
`KeyboardInterrupt` raised during the `time.sleep` between items
propagates out before `self.cleanup()` is reached, so the run ends with
the driver opened but never closed (and no summary). -/
theorem interrupt_skips_cleanup :
    (upload_bulk envInterrupt 0).driverOpened = true
    ∧ (upload_bulk envInterrupt 0).driverClosed = false
    ∧ (upload_bulk envInterrupt 0).summaryPrinted = false :=
  ⟨rfl, rfl, rfl⟩

/-- C8 (amended): the driver is closed exactly on the exit paths the
source reaches sequentially — normal loop completion and login failure —
so in every run that is not interrupted, the driver is closed whenever
it was opened (and when there are no products it is never opened); an
interrupt escaping the loop leaves it open. -/
theorem session_release_no_interrupt (env : BulkEnv) (s : Nat)
    (hni : env.interruptAtSleep = none) :
    (upload_bulk env s).driverClosed = (upload_bulk env s).driverOpened := by
  by_cases hn : env.products.length = 0
  · simp [upload_bulk, hn]
  · cases hlog : env.loginOk
    · simp [upload_bulk, hn, hlog]
    · have hrun := runItems_closed env hni env.products.length
        (List.range' s (env.products.length - s))
        { success := 0, failed := 0, invoked := [], sleeps := 0, interrupted := false }
      simp [upload_bulk, hn, hlog, hrun]

theorem session_release_witness :
    (upload_bulk env12 0).driverClosed = (upload_bulk env12 0).driverOpened :=
  session_release_no_interrupt env12 0 rfl

/-! ## Claim C9 -/

/-- C9 (counterexample): the claim says a row missing a required field
fails validation and is never passed to the per-listing workflow.
`validate_products` does flag the row, but `upload_bulk` never calls it:
the batch of one title-less row still invokes `upload_single_product` on
that row (invoked item index 0). -/
theorem validation_counterexample :
    validateErrors floatOkFix [badRow] = ["Product 1: Missing title"]
    ∧ (upload_bulk envBad 0).invoked = [0]
    ∧ pyTruthy badRow.title = false :=
  ⟨rfl, rfl, rfl⟩

/-- C9 (amended): `validate_products` reports a `Missing title` error
for every row whose title is falsy, but the batch uploader performs no
validation at all: in any run that passes login and is not interrupted,
the workflow is invoked on every loaded row from the start index on,
valid or not (and such rows do consume retries inside
`upload_single_product`). -/
theorem validation_flagged_not_excluded (floatOk : String → Bool)
    (rows : List Row) (j : Nat) (r : Row) (env : BulkEnv) (s : Nat)
    (hj : rows.get? j = some r) (ht : pyTruthy r.title = false)
    (hlog : env.loginOk = true) (hni : env.interruptAtSleep = none) :
    missingMsg j "title" ∈ validateErrors floatOk rows
    ∧ (upload_bulk env s).invoked = List.range' s (env.products.length - s) := by
  constructor
  · have h := validateErrorsFrom_missing_title floatOk rows 0 j r hj ht
    simpa using h
  · by_cases hn : env.products.length = 0
    · simp [upload_bulk, hn]
    · have hrun := runItems_closed env hni env.products.length
        (List.range' s (env.products.length - s))
        { success := 0, failed := 0, invoked := [], sleeps := 0, interrupted := false }
      simp [upload_bulk, hn, hlog, hrun]

theorem validation_flagged_witness :
    missingMsg 0 "title" ∈ validateErrors floatOkFix [badRow]
    ∧ (upload_bulk envBad 0).invoked
        = List.range' 0 (envBad.products.length - 0) :=
  ⟨(validation_flagged_not_excluded floatOkFix [badRow] 0 badRow envBad 0
      rfl rfl rfl rfl).1,
   (validation_flagged_not_excluded floatOkFix [badRow] 0 badRow envBad 0
      rfl rfl rfl rfl).2⟩

/-! ## Claim C4 -/

/-- C4: the retry chain started by `upload_single_product` executes at
most `max_retries + 1` attempts; the executed attempts carry consecutive
retry counts 0, 1, ... (each one a fresh call that restarts from the
Navigate step, with no state carried between attempts); a failed attempt
with retry count below the maximum is followed by exactly one further
attempt; and in an uninterrupted batch run every invoked listing
contributes exactly one to success plus failed, never both. -/
theorem retry_budget (env : SingleEnv) (benv : BulkEnv) (s k : Nat)
    (hni : benv.interruptAtSleep = none) :
    (attemptsFrom env 0).length ≤ env.maxRetries + 1
    ∧ attemptsFrom env 0 = List.range' 0 (attemptsFrom env 0).length
    ∧ (k ∈ attemptsFrom env 0 → env.outcome k ≠ AttemptOutcome.published →
        k < env.maxRetries → (k + 1) ∈ attemptsFrom env 0)
    ∧ (upload_bulk benv s).success + (upload_bulk benv s).failed
        = (upload_bulk benv s).invoked.length := by
  refine ⟨?_, attemptsFrom_eq_range' env 0, ?_, ?_⟩
  · have h := attemptsFrom_length env 0 (Nat.zero_le _)
    omega
  · exact fun hk hf hl => attemptsFrom_succ_mem env 0 k hk hf hl
  · by_cases hn : benv.products.length = 0
    · simp [upload_bulk, hn]
    · cases hlog : benv.loginOk
      · simp [upload_bulk, hn, hlog]
      · have hrun := runItems_closed benv hni benv.products.length
          (List.range' s (benv.products.length - s))
          { success := 0, failed := 0, invoked := [], sleeps := 0, interrupted := false }
        simp [upload_bulk, hn, hlog, hrun]
        simpa using countP_bool_split benv.itemSucceeds
          (List.range' s (benv.products.length - s))

theorem retry_budget_witness :
    (attemptsFrom envSecondTry 0).length ≤ envSecondTry.maxRetries + 1
    ∧ (0 + 1) ∈ attemptsFrom envSecondTry 0 := by
  refine ⟨(retry_budget envSecondTry env12 0 0 rfl).1, ?_⟩
  exact (retry_budget envSecondTry env12 0 0 rfl).2.2.1
    (mem_attemptsFrom_self envSecondTry 0) (by decide) (by decide)

end EtsyBrowser
